import Mathlib

/-!
Verification development for an nRF24L01+ radio driver (Rust).

The driver's mode logic (`tx.rs`), device layer (`lib.rs`) and
configuration façade (`config.rs`) are embedded shallowly: every
device-visible effect (chip-enable pin changes, bus commands, register
writes) is recorded as an `Action` in a trace, bus reads are supplied as
explicit inputs, and each Rust function becomes a pure Lean function from
its inputs to its result together with the trace of effects it performs.

The repository's `registers.rs`, `device.rs` and `standby.rs` are not in
the sources; the few pieces needed from them (Status bit layout, the
`FIFO_STATUS` / `FEATURE` / `SETUP_AW` / `DYNPD` fields,
`Device::update_register`, `StandbyMode::power_up`) are modelled from the
specification, as marked in their doc comments.
-/

namespace Nrf24

/-- Modelled from the spec: `registers.rs` is absent. The STATUS register,
byte 0 of every response: bit 6 receive-ready (`rx_dr`), bit 5 send-done
(`tx_ds`), bit 4 retransmit-limit-exceeded (`max_rt`), bits 3..1
receiving pipe number, bit 0 transmit-FIFO-full. -/
structure Status where
  raw : Nat
deriving DecidableEq

def Status.rx_dr (s : Status) : Bool := s.raw.testBit 6

def Status.tx_ds (s : Status) : Bool := s.raw.testBit 5

def Status.max_rt (s : Status) : Bool := s.raw.testBit 4

def Status.tx_full (s : Status) : Bool := s.raw.testBit 0

def Status.set_rx_dr (s : Status) (b : Bool) : Status :=
  ⟨if b then s.raw ||| 2 ^ 6 else s.raw &&& (255 - 2 ^ 6)⟩

def Status.set_tx_ds (s : Status) (b : Bool) : Status :=
  ⟨if b then s.raw ||| 2 ^ 5 else s.raw &&& (255 - 2 ^ 5)⟩

def Status.set_max_rt (s : Status) (b : Bool) : Status :=
  ⟨if b then s.raw ||| 2 ^ 4 else s.raw &&& (255 - 2 ^ 4)⟩

/-- Modelled from the spec: `registers.rs` is absent. Of the FIFO_STATUS
register only the two transmit-side bits the driver reads are kept, as
abstract booleans. -/
structure FifoStatus where
  tx_empty : Bool
  tx_full : Bool
deriving DecidableEq

/-- Modelled from the spec: `registers.rs` is absent. The FEATURE register
holds the dynamic-payload-length, ack-payload and dynamic-ack enable
bits. -/
structure Feature where
  en_dpl : Bool
  en_ack_pay : Bool
  en_dyn_ack : Bool
deriving DecidableEq

/-- Modelled from the spec: `registers.rs` is absent. The SETUP_AW
register's `aw` field occupies the low three bits of the raw byte;
readback values above 3 are invalid and indicate an absent chip. -/
def SetupAw.aw (raw : Nat) : Nat := raw % 8

/-- One device-visible effect: a chip-enable pin change, a bus command, or
a register write (reads are modelled as explicit inputs instead). -/
inductive Action where
  | ceHigh : Action
  | ceLow : Action
  | flushTx : Action
  | writeStatus (s : Status) : Action
  | writeConfig (v : Nat) : Action
  | writeFeature (f : Feature) : Action
  | writeDynpd (v : Nat) : Action
  | writeRxPw (pipe : Nat) (len : Nat) : Action
  | writeSetupRetr (ard : Nat) (arc : Nat) : Action
  | writeRfCh (v : Nat) : Action
  | writeRfSetup (pwr : Nat) (drLow : Bool) (drHigh : Bool) : Action
  | writeSetupAw (v : Nat) : Action
  | writeRxAddr (pipe : Nat) (addr : List Nat) : Action
  | powerUp : Action
deriving DecidableEq

/-- The chip-enable pin level after running a trace from initial level
`ce`: `ceHigh` and `ceLow` update it, every other action leaves it. -/
def ceAfter (ce : Bool) : List Action → Bool
  | [] => ce
  | Action.ceHigh :: rest => ceAfter true rest
  | Action.ceLow :: rest => ceAfter false rest
  | _ :: rest => ceAfter ce rest

/-- Result type of `poll_send` (`nb::Result<bool, Error>` restricted to
runs whose bus operations succeed): done-with-outcome, or would-block. -/
inductive NbResult (α : Type) where
  | ok (a : α) : NbResult α
  | wouldBlock : NbResult α
deriving DecidableEq

namespace TxMode

/-- The Status value written by `clear_interrupts_and_ce` and
`wait_empty`: `Status(0)` with `tx_ds` and `max_rt` set. -/
def statusClear : Status := Status.set_max_rt (Status.set_tx_ds ⟨0⟩ true) true

/-- Embeds `TxMode::clear_interrupts_and_ce` (tx.rs): write the
interrupt-clearing Status value, then lower chip-enable. -/
def clear_interrupts_and_ce : List Action :=
  [Action.writeStatus statusClear, Action.ceLow]

/-- Embeds `TxMode::poll_send` (tx.rs) on a successful FIFO_STATUS read
returning `(status, fifo_status)`: flush-and-fail on `max_rt`, clear-and-
succeed on empty FIFO, otherwise re-raise chip-enable and would-block. -/
def poll_send (status : Status) (fifo_status : FifoStatus) :
    NbResult Bool × List Action :=
  if status.max_rt then
    (NbResult.ok false, Action.flushTx :: clear_interrupts_and_ce)
  else if fifo_status.tx_empty then
    (NbResult.ok true, clear_interrupts_and_ce)
  else
    (NbResult.wouldBlock, [Action.ceHigh])

/-- One iteration body of the `wait_empty` loop (tx.rs) after a read
returning `(status, fifo_status)`: raise chip-enable if the FIFO is not
empty, then, if MAX_RT is set, flush the TX FIFO and write the
interrupt-clearing Status value. -/
def wait_iter (status : Status) (fifo_status : FifoStatus) : List Action :=
  (if fifo_status.tx_empty then [] else [Action.ceHigh]) ++
  (if status.max_rt then [Action.flushTx, Action.writeStatus statusClear] else [])

/-- The `while !empty` loop of `TxMode::wait_empty` (tx.rs), reading one
`(Status, FifoStatus)` pair per iteration from `script`; `none` means the
script was exhausted with the loop still running. -/
def wait_empty_loop : List (Status × FifoStatus) → Option (List Action)
  | [] => none
  | r :: rest =>
    if r.2.tx_empty then some (wait_iter r.1 r.2)
    else
      match wait_empty_loop rest with
      | none => none
      | some t => some (wait_iter r.1 r.2 ++ t)

/-- Embeds `TxMode::wait_empty` (tx.rs): run the loop until the FIFO is
reported empty, then lower chip-enable. -/
def wait_empty (script : List (Status × FifoStatus)) : Option (List Action) :=
  (wait_empty_loop script).map (fun t => t ++ [Action.ceLow])

end TxMode

/-- Marker for the Standby state produced by `StandbyMode::from_rx_tx`. -/
inductive StandbyMode where
  | fromRxTx : StandbyMode
deriving DecidableEq

/-- Embeds `TxMode::standby` (tx.rs): drain the transmit FIFO via
`wait_empty`, then hand the device to `StandbyMode::from_rx_tx`. -/
def TxMode.standby (script : List (Status × FifoStatus)) :
    Option (StandbyMode × List Action) :=
  (TxMode.wait_empty script).map (fun t => (StandbyMode.fromRxTx, t))

namespace NRF24L01

/-- Outcome of one `send_command` call (lib.rs). The Rust function
declares `Result<(Status, C::Response), Self::Error>` but unwraps the SPI
transfer with `.expect("TODO: panic message")`, so a bus failure ends in a
panic, never in an returned error value; `panicked` records that. -/
inductive SendOutcome where
  | ok (status : Status) (response : List Nat) : SendOutcome
  | panicked : SendOutcome
deriving DecidableEq

/-- Embeds `NRF24L01::send_command` (lib.rs): serialize the command into a
frame, run one full-duplex SPI exchange (`bus`, `none` = transfer
failure), take byte 0 of the response as Status and the rest per the
command's decode rule (kept as the raw bytes here). The cached
configuration register `config` is passed through untouched. On transfer
failure the code panics via `.expect`. -/
def send_command (config : Nat) (frame : List Nat)
    (bus : List Nat → Option (List Nat)) : SendOutcome × Nat :=
  match bus frame with
  | some buf => (SendOutcome.ok ⟨buf.headD 0⟩ buf, config)
  | none => (SendOutcome.panicked, config)

/-- Embeds `NRF24L01::update_config` (lib.rs): apply the mutator to the
cached configuration register (a raw bit pattern) and write the CONFIG
register back only if the mutated pattern differs from the prior cached
value. Returns the new cache and the trace of bus writes. -/
def update_config (config : Nat) (f : Nat → Nat) : Nat × List Action :=
  let old_config := config
  let newConfig := f config
  (newConfig, if newConfig ≠ old_config then [Action.writeConfig newConfig] else [])

/-- Outcome of `NRF24L01::new` (lib.rs). `panicked` records the panic
inside `send_command` when the SETUP_AW readback's bus transfer fails;
`notConnected` is `Error::NotConnected`; `powerUpFailed` stands for the
device error returned by `StandbyMode::power_up`. -/
inductive NewOutcome where
  | standby : NewOutcome
  | notConnected : NewOutcome
  | powerUpFailed : NewOutcome
  | panicked : NewOutcome
deriving DecidableEq

/-- The FEATURE value written by `NRF24L01::new`: `Feature(0)` with
`en_dyn_ack` and `en_dpl` set. -/
def featuresInit : Feature :=
  { en_dpl := true, en_ack_pay := false, en_dyn_ack := true }

/-- Embeds `NRF24L01::new` (lib.rs): pull chip-enable low, probe the chip
by reading SETUP_AW (`setupAwBus`: `none` = bus transfer failure, which
panics inside `send_command`; `some raw` = raw byte read back) and
validating `aw ≤ 3`, write the FEATURE register with dynamic-ack and
dynamic-payload-length enabled, then power up into Standby.
`StandbyMode::power_up` is in the absent `standby.rs` and is modelled
from the spec as a single opaque initialization step that either
completes Standby or fails with a device error (`powerUpOk`). -/
def new (setupAwBus : Option Nat) (powerUpOk : Bool) : NewOutcome × List Action :=
  match setupAwBus with
  | none => (NewOutcome.panicked, [Action.ceLow])
  | some raw =>
    if SetupAw.aw raw ≤ 3 then
      if powerUpOk then
        (NewOutcome.standby,
          [Action.ceLow, Action.writeFeature featuresInit, Action.powerUp])
      else
        (NewOutcome.powerUpFailed, [Action.ceLow, Action.writeFeature featuresInit])
    else
      (NewOutcome.notConnected, [Action.ceLow])

end NRF24L01

/-- Supported air data rates (config.rs). -/
inductive DataRate where
  | R250Kbps : DataRate
  | R1Mbps : DataRate
  | R2Mbps : DataRate
deriving DecidableEq

namespace Configuration

/-- Embeds `Configuration::set_frequency` (config.rs): `assert!(freq_offset
< 126)`, then write the RF_CH register. `none` models the panic of a
failed assertion, which happens before any bus write. -/
def set_frequency (freq_offset : Nat) : Option (List Action) :=
  if freq_offset < 126 then some [Action.writeRfCh freq_offset] else none

/-- Embeds `Configuration::set_rf` (config.rs): `assert!(power < 0b100)`,
then write RF_SETUP with the power level and the two data-rate bits.
`none` models the panic of a failed assertion. -/
def set_rf (rate : DataRate) (power : Nat) : Option (List Action) :=
  if power < 4 then
    let dr : Bool × Bool :=
      match rate with
      | DataRate.R250Kbps => (true, false)
      | DataRate.R1Mbps => (false, false)
      | DataRate.R2Mbps => (false, true)
    some [Action.writeRfSetup power dr.1 dr.2]
  else none

/-- Embeds `Configuration::set_rx_addr` (config.rs): write the pipe's
RX_ADDR register for `pipe_no` in 0..=5, `panic!("No such pipe")`
otherwise (modelled as `none`), before any bus write. -/
def set_rx_addr (pipe_no : Nat) (addr : List Nat) : Option (List Action) :=
  if pipe_no ≤ 5 then some [Action.writeRxAddr pipe_no addr] else none

/-- Embeds `Configuration::set_auto_retransmit` (config.rs): build a
SETUP_RETR value from the delay and count fields and write it on every
call, unconditionally. -/
def set_auto_retransmit (delay : Nat) (count : Nat) : List Action :=
  [Action.writeSetupRetr delay count]

/-- Embeds `Configuration::get_address_width` (config.rs): read SETUP_AW
(raw byte supplied as input) and return `2 + aw`. -/
def get_address_width (raw : Nat) : Nat := 2 + SetupAw.aw raw

/-- Embeds `Configuration::set_address_width` (config.rs): the function
performs no range check; it computes `width - 2` on a `u8` (a panic on
underflow for width < 2 under overflow checks, modelled as `none`) and
writes the result to SETUP_AW for every width ≥ 2, including widths above
5. -/
def set_address_width (width : Nat) : Option (List Action) :=
  if 2 ≤ width then some [Action.writeSetupAw (width - 2)] else none

/-- Modelled from the spec: `registers.rs` is absent. `Dynpd::from_bools`
packs the 6-element boolean collection into bits 0..5, pipe `i` at bit
`i`. -/
def dynpdFromBools (bools : Fin 6 → Bool) : Nat :=
  ∑ i : Fin 6, if bools i then 2 ^ (i : Nat) else 0

/-- The six per-pipe RX_PW register writes performed at the end of
`set_pipes_rx_lengths`, in pipe order, each carrying
`lengths[i].unwrap_or(0)`. -/
def rxPwWrites (lengths : Fin 6 → Option Nat) : List Action :=
  [Action.writeRxPw 0 ((lengths 0).getD 0), Action.writeRxPw 1 ((lengths 1).getD 0),
    Action.writeRxPw 2 ((lengths 2).getD 0), Action.writeRxPw 3 ((lengths 3).getD 0),
    Action.writeRxPw 4 ((lengths 4).getD 0), Action.writeRxPw 5 ((lengths 5).getD 0)]

/-- Embeds `Configuration::set_pipes_rx_lengths` (config.rs): mark each
pipe with `None` length as dynamic, pack those booleans into DYNPD; if
any bit is set, read-modify-write the FEATURE register setting `en_dpl`
(`Device::update_register` is in the absent `device.rs` and is modelled
from the spec as an unconditional read-modify-write; `feature` is the
value read back); then write DYNPD and the six RX_PW registers in order.
-/
def set_pipes_rx_lengths (lengths : Fin 6 → Option Nat) (feature : Feature) :
    List Action :=
  let bools : Fin 6 → Bool := fun i => (lengths i).isNone
  let dynpd := dynpdFromBools bools
  (if dynpd ≠ 0 then [Action.writeFeature { feature with en_dpl := true }] else [])
    ++ [Action.writeDynpd dynpd] ++ rxPwWrites lengths

end Configuration

end Nrf24

namespace Nrf24

/-- C1: when the Status read by `poll_send` has MAX_RT set, exactly one
flush-TX command is issued, then a Status value with `tx_ds` and `max_rt`
set is written, chip-enable is lowered, and `Ok(false)` is returned; and a
flush is issued only when MAX_RT is set, so a later call seeing MAX_RT
clear (in particular with an empty FIFO) issues no flush. -/
theorem poll_send_max_rt_flushes_once :
    (∀ status fifo_status, status.max_rt = true →
      TxMode.poll_send status fifo_status =
        (NbResult.ok false,
          [Action.flushTx, Action.writeStatus TxMode.statusClear, Action.ceLow]) ∧
      ((TxMode.poll_send status fifo_status).2.count Action.flushTx = 1) ∧
      (∀ ce, ceAfter ce (TxMode.poll_send status fifo_status).2 = false)) ∧
    TxMode.statusClear.tx_ds = true ∧ TxMode.statusClear.max_rt = true ∧
    (∀ status fifo_status, status.max_rt = false →
      Action.flushTx ∉ (TxMode.poll_send status fifo_status).2) := by
  refine ⟨?_, by decide, by decide, ?_⟩
  · intro status fifo_status h
    simp [TxMode.poll_send, h, TxMode.clear_interrupts_and_ce, ceAfter]
  · intro status fifo_status h
    by_cases he : fifo_status.tx_empty <;>
      simp [TxMode.poll_send, h, he, TxMode.clear_interrupts_and_ce]

/-- Witness for C1 at a concrete Status with bit 4 set (raw 16) and a
concrete later read with MAX_RT clear and FIFO empty. -/
theorem poll_send_max_rt_flushes_once_witness :
    (TxMode.poll_send ⟨16⟩ ⟨false, false⟩ =
      (NbResult.ok false,
        [Action.flushTx, Action.writeStatus TxMode.statusClear, Action.ceLow])) ∧
    Action.flushTx ∉ (TxMode.poll_send ⟨0⟩ ⟨true, false⟩).2 :=
  ⟨(poll_send_max_rt_flushes_once.1 ⟨16⟩ ⟨false, false⟩ (by decide)).1,
    poll_send_max_rt_flushes_once.2.2.2 ⟨0⟩ ⟨true, false⟩ (by decide)⟩

/-- C2: when the Status read by `poll_send` has MAX_RT clear: if the FIFO
is empty it writes the interrupt-clearing Status value, lowers chip-enable
and returns `Ok(true)`; otherwise it only re-raises chip-enable (no other
device operation) and returns would-block. -/
theorem poll_send_max_rt_clear :
    (∀ status fifo_status, status.max_rt = false → fifo_status.tx_empty = true →
      TxMode.poll_send status fifo_status =
        (NbResult.ok true, [Action.writeStatus TxMode.statusClear, Action.ceLow]) ∧
      (∀ ce, ceAfter ce (TxMode.poll_send status fifo_status).2 = false)) ∧
    (∀ status fifo_status, status.max_rt = false → fifo_status.tx_empty = false →
      TxMode.poll_send status fifo_status = (NbResult.wouldBlock, [Action.ceHigh]) ∧
      (∀ ce, ceAfter ce (TxMode.poll_send status fifo_status).2 = true)) := by
  constructor
  · intro status fifo_status h he
    simp [TxMode.poll_send, h, he, TxMode.clear_interrupts_and_ce, ceAfter]
  · intro status fifo_status h he
    simp [TxMode.poll_send, h, he, ceAfter]

/-- Witness for C2 at concrete reads: MAX_RT clear with empty FIFO, and
MAX_RT clear with non-empty FIFO. -/
theorem poll_send_max_rt_clear_witness :
    (TxMode.poll_send ⟨0⟩ ⟨true, false⟩ =
      (NbResult.ok true, [Action.writeStatus TxMode.statusClear, Action.ceLow])) ∧
    (TxMode.poll_send ⟨0⟩ ⟨false, true⟩ = (NbResult.wouldBlock, [Action.ceHigh])) :=
  ⟨(poll_send_max_rt_clear.1 ⟨0⟩ ⟨true, false⟩ (by decide) (by decide)).1,
    (poll_send_max_rt_clear.2 ⟨0⟩ ⟨false, true⟩ (by decide) (by decide)).1⟩

lemma ceAfter_append (ce : Bool) (l1 l2 : List Action) :
    ceAfter ce (l1 ++ l2) = ceAfter (ceAfter ce l1) l2 := by
  induction l1 generalizing ce with
  | nil => rfl
  | cons a rest ih => cases a <;> simp [ceAfter, ih]

lemma ceLow_not_mem_wait_iter (status : Status) (fifo_status : FifoStatus) :
    Action.ceLow ∉ TxMode.wait_iter status fifo_status := by
  by_cases h : status.max_rt <;> by_cases he : fifo_status.tx_empty <;>
    simp [TxMode.wait_iter, h, he]

lemma wait_empty_loop_ceLow_not_mem (script : List (Status × FifoStatus))
    (t : List Action) (h : TxMode.wait_empty_loop script = some t) :
    Action.ceLow ∉ t := by
  induction script generalizing t with
  | nil => simp [TxMode.wait_empty_loop] at h
  | cons r rest ih =>
    rw [TxMode.wait_empty_loop] at h
    by_cases he : r.2.tx_empty
    · simp only [he, if_pos] at h
      cases h
      exact ceLow_not_mem_wait_iter r.1 r.2
    · simp only [he, if_neg, Bool.false_eq_true, not_false_iff] at h
      cases hrec : TxMode.wait_empty_loop rest with
      | none => rw [hrec] at h; cases h
      | some t0 =>
        rw [hrec] at h
        cases h
        intro hmem
        rcases List.mem_append.mp hmem with h1 | h2
        · exact ceLow_not_mem_wait_iter r.1 r.2 h1
        · exact ih t0 hrec h2

lemma wait_empty_loop_all_nonempty (script : List (Status × FifoStatus))
    (h : ∀ x ∈ script, x.2.tx_empty = false) :
    TxMode.wait_empty_loop script = none := by
  induction script with
  | nil => rfl
  | cons r rest ih =>
    have hr := h r (by simp)
    rw [TxMode.wait_empty_loop, ih (fun x hx => h x (List.mem_cons_of_mem r hx))]
    simp [hr]

/-- C3: `wait_empty` never returns while every read reports the FIFO
non-empty; each iteration with a non-empty FIFO raises chip-enable; each
read with MAX_RT set triggers a flush-TX and an interrupt-clear write;
whether the loop exits after an iteration does not depend on the Status
read (only on FIFO emptiness), so MAX_RT handling never exits the loop;
and on termination the trace contains exactly one chip-enable-lowering,
as its final action. -/
theorem wait_empty_spec :
    (∀ script, (∀ x ∈ script, x.2.tx_empty = false) →
      TxMode.wait_empty script = none) ∧
    (∀ status fifo_status, fifo_status.tx_empty = false →
      Action.ceHigh ∈ TxMode.wait_iter status fifo_status) ∧
    (∀ status fifo_status, status.max_rt = true →
      Action.flushTx ∈ TxMode.wait_iter status fifo_status ∧
      Action.writeStatus TxMode.statusClear ∈ TxMode.wait_iter status fifo_status) ∧
    (∀ status status2 fifo_status rest,
      (TxMode.wait_empty ((status, fifo_status) :: rest)).isSome =
        (TxMode.wait_empty ((status2, fifo_status) :: rest)).isSome) ∧
    (∀ script t, TxMode.wait_empty script = some t →
      t.count Action.ceLow = 1 ∧ t.getLast? = some Action.ceLow ∧
      ∃ x ∈ script, x.2.tx_empty = true) := by
  refine ⟨?_, ?_, ?_, ?_, ?_⟩
  · intro script h
    rw [TxMode.wait_empty, wait_empty_loop_all_nonempty script h]
    rfl
  · intro status fifo_status he
    simp [TxMode.wait_iter, he]
  · intro status fifo_status h
    by_cases he : fifo_status.tx_empty <;> simp [TxMode.wait_iter, h, he]
  · intro status status2 fifo_status rest
    rw [TxMode.wait_empty, TxMode.wait_empty,
      TxMode.wait_empty_loop, TxMode.wait_empty_loop]
    by_cases he : fifo_status.tx_empty
    · simp [he]
    · cases TxMode.wait_empty_loop rest <;> simp [he]
  · intro script t h
    rw [TxMode.wait_empty] at h
    cases hrec : TxMode.wait_empty_loop script with
    | none => rw [hrec] at h; cases h
    | some t0 =>
      rw [hrec] at h
      simp only [Option.map_some', Option.some.injEq] at h
      subst h
      refine ⟨?_, ?_, ?_⟩
      · have hnot := wait_empty_loop_ceLow_not_mem script t0 hrec
        rw [List.count_append, List.count_eq_zero.mpr hnot]
        rfl
      · rw [List.getLast?_concat]
      · by_contra hall
        push_neg at hall
        have hall2 : ∀ x ∈ script, x.2.tx_empty = false := by
          intro x hx
          have := hall x hx
          simpa using this
        rw [wait_empty_loop_all_nonempty script hall2] at hrec
        cases hrec

/-- Witness for C3 at concrete scripts: a one-read all-non-empty script on
which `wait_empty` returns `none`, and a one-read empty-FIFO script whose
trace is exactly one chip-enable-lowering. -/
theorem wait_empty_spec_witness :
    (TxMode.wait_empty [(⟨0⟩, ⟨false, false⟩)] = none) ∧
    ([Action.ceLow].count Action.ceLow = 1 ∧
      [Action.ceLow].getLast? = some Action.ceLow ∧
      ∃ x ∈ [((⟨0⟩ : Status), (⟨true, false⟩ : FifoStatus))], x.2.tx_empty = true) :=
  ⟨wait_empty_spec.1 [(⟨0⟩, ⟨false, false⟩)] (by decide),
    wait_empty_spec.2.2.2.2 [(⟨0⟩, ⟨true, false⟩)] [Action.ceLow] (by decide)⟩

/-- C6: `TxMode::standby` runs `wait_empty` and wraps its outcome in the
Standby value; whenever it returns a Standby value, some read of the
script reported the transmit FIFO empty, and the trace ends with (and
leaves) chip-enable low. -/
theorem standby_spec :
    (∀ script, TxMode.standby script =
      (TxMode.wait_empty script).map (fun t => (StandbyMode.fromRxTx, t))) ∧
    (∀ script r, TxMode.standby script = some r →
      (∃ x ∈ script, x.2.tx_empty = true) ∧
      r.2.getLast? = some Action.ceLow ∧
      ∀ ce, ceAfter ce r.2 = false) := by
  refine ⟨fun script => rfl, ?_⟩
  intro script r h
  rw [TxMode.standby] at h
  cases hw : TxMode.wait_empty script with
  | none => rw [hw] at h; cases h
  | some t =>
    rw [hw] at h
    simp only [Option.map_some', Option.some.injEq] at h
    have hspec := wait_empty_spec.2.2.2.2 script t hw
    subst h
    refine ⟨hspec.2.2, hspec.2.1, ?_⟩
    intro ce
    rw [TxMode.wait_empty] at hw
    cases hrec : TxMode.wait_empty_loop script with
    | none => rw [hrec] at hw; cases hw
    | some t0 =>
      rw [hrec] at hw
      simp only [Option.map_some', Option.some.injEq] at hw
      rw [← hw, ceAfter_append]
      rfl

/-- Witness for C6 at a concrete script whose single read reports the
transmit FIFO empty. -/
theorem standby_spec_witness :
    (∃ x ∈ [((⟨0⟩ : Status), (⟨true, false⟩ : FifoStatus))], x.2.tx_empty = true) ∧
    (StandbyMode.fromRxTx, [Action.ceLow]).2.getLast? = some Action.ceLow ∧
    ∀ ce, ceAfter ce (StandbyMode.fromRxTx, [Action.ceLow]).2 = false :=
  standby_spec.2 [(⟨0⟩, ⟨true, false⟩)] (StandbyMode.fromRxTx, [Action.ceLow])
    (by decide)

/-- C4: `update_config` applies the mutator to the cached configuration
register and performs a CONFIG write exactly when the mutated bit pattern
differs from the prior cached value (no bus write at all when it is
unchanged), while `set_auto_retransmit` and `set_frequency` write their
register unconditionally on every (in-contract) call. -/
theorem update_config_write_iff :
    (∀ config f, (NRF24L01.update_config config f).1 = f config ∧
      (f config ≠ config →
        (NRF24L01.update_config config f).2 = [Action.writeConfig (f config)]) ∧
      (f config = config → (NRF24L01.update_config config f).2 = [])) ∧
    (∀ delay count, Configuration.set_auto_retransmit delay count =
      [Action.writeSetupRetr delay count]) ∧
    (∀ freq_offset, freq_offset < 126 →
      Configuration.set_frequency freq_offset = some [Action.writeRfCh freq_offset]) := by
  refine ⟨?_, fun delay count => rfl, ?_⟩
  · intro config f
    refine ⟨rfl, ?_, ?_⟩
    · intro h
      simp [NRF24L01.update_config, h]
    · intro h
      simp [NRF24L01.update_config, h]
  · intro freq_offset h
    simp [Configuration.set_frequency, h]

/-- Witness for C4: a mutator that changes the cache (writes once), the
identity mutator (writes nothing), and a concrete frequency write. -/
theorem update_config_write_iff_witness :
    (NRF24L01.update_config 8 (fun v => v ||| 1)).2 = [Action.writeConfig 9] ∧
    (NRF24L01.update_config 8 (fun v => v)).2 = [] ∧
    Configuration.set_frequency 76 = some [Action.writeRfCh 76] :=
  ⟨(update_config_write_iff.1 8 (fun v => v ||| 1)).2.1 (by decide),
    (update_config_write_iff.1 8 (fun v => v)).2.2 rfl,
    update_config_write_iff.2.2 76 (by decide)⟩

/-- C5 (code bug): on a failing bus transfer, `send_command` does not
surface an error value to its caller — it panics, because the code
unwraps the SPI result with `.expect("TODO: panic message")` despite its
declared fallible return type. The cached configuration is left
unchanged, and the exchange is not retried. Evaluated at a concrete
failing input: config cache 8, a one-byte NOP frame, a bus whose transfer
fails. -/
theorem send_command_panics_on_bus_failure :
    NRF24L01.send_command 8 [255] (fun _ => none) =
      (NRF24L01.SendOutcome.panicked, 8) := rfl

/-- C7 counterexample: `set_address_width(6)` is an out-of-range input
(width outside [2,5]) but does not abort: it issues a SETUP_AW bus write
of the raw value 4. -/
theorem set_address_width_six_writes :
    Configuration.set_address_width 6 = some [Action.writeSetupAw 4] ∧
    (Configuration.set_address_width 6).isSome = true := by decide

/-- C7 as amended: `set_frequency` with offset ≥ 126, `set_rf` with power
≥ 4 and `set_rx_addr` with pipe > 5 each panic on their assertion before
any bus write; `set_address_width` performs no range check: it aborts
only for width < 2 (arithmetic underflow of `width - 2`) and for any
width ≥ 6 issues a SETUP_AW write of `width - 2` rather than failing
fast. -/
theorem contract_violations_fail_fast :
    (∀ freq_offset, 126 ≤ freq_offset → Configuration.set_frequency freq_offset = none) ∧
    (∀ rate power, 4 ≤ power → Configuration.set_rf rate power = none) ∧
    (∀ pipe_no addr, 5 < pipe_no → Configuration.set_rx_addr pipe_no addr = none) ∧
    (∀ width, width < 2 → Configuration.set_address_width width = none) ∧
    (∀ width, 6 ≤ width →
      Configuration.set_address_width width = some [Action.writeSetupAw (width - 2)]) := by
  refine ⟨?_, ?_, ?_, ?_, ?_⟩
  · intro freq_offset h
    simp [Configuration.set_frequency, Nat.not_lt.mpr h]
  · intro rate power h
    simp [Configuration.set_rf, Nat.not_lt.mpr h]
  · intro pipe_no addr h
    simp [Configuration.set_rx_addr, Nat.not_le.mpr h]
  · intro width h
    simp [Configuration.set_address_width, Nat.not_le.mpr h]
  · intro width h
    have h2 : 2 ≤ width := Nat.le_trans (by norm_num) h
    simp [Configuration.set_address_width, h2]

/-- Witness for C7 at concrete out-of-range inputs for each setter. -/
theorem contract_violations_fail_fast_witness :
    Configuration.set_frequency 126 = none ∧
    Configuration.set_rf DataRate.R1Mbps 4 = none ∧
    Configuration.set_rx_addr 6 [1, 2, 3] = none ∧
    Configuration.set_address_width 1 = none ∧
    Configuration.set_address_width 7 = some [Action.writeSetupAw 5] :=
  ⟨contract_violations_fail_fast.1 126 (by decide),
    contract_violations_fail_fast.2.1 DataRate.R1Mbps 4 (by decide),
    contract_violations_fail_fast.2.2.1 6 [1, 2, 3] (by decide),
    contract_violations_fail_fast.2.2.2.1 1 (by decide),
    contract_violations_fail_fast.2.2.2.2 7 (by decide)⟩

/-- C8: for every width in {2,3,4,5}, `set_address_width` writes the raw
value `width - 2` to SETUP_AW, and `get_address_width` applied to that
mirrored raw value decodes it back to `width`: the encoding and decoding
compose to the identity on {2,3,4,5}. -/
theorem address_width_round_trip :
    ∀ width, 2 ≤ width → width ≤ 5 →
      Configuration.set_address_width width = some [Action.writeSetupAw (width - 2)] ∧
      Configuration.get_address_width (width - 2) = width := by
  intro width h2 h5
  constructor
  · simp [Configuration.set_address_width, h2]
  · interval_cases width <;> decide

/-- Witness for C8 at width 4. -/
theorem address_width_round_trip_witness :
    Configuration.set_address_width 4 = some [Action.writeSetupAw 2] ∧
    Configuration.get_address_width 2 = 4 :=
  address_width_round_trip 4 (by decide) (by decide)

/-- C9 counterexample: a bus-transfer failure during the SETUP_AW
connectivity probe does not make construction return an error value:
`NRF24L01::new` panics inside `send_command`, so the outcome is neither
`NotConnected` nor a device error. -/
theorem new_probe_failure_panics :
    NRF24L01.new none true = (NRF24L01.NewOutcome.panicked, [Action.ceLow]) ∧
    (NRF24L01.new none true).1 ≠ NRF24L01.NewOutcome.notConnected ∧
    (NRF24L01.new none true).1 ≠ NRF24L01.NewOutcome.powerUpFailed := by decide

/-- C9 as amended: on every successful construction the FEATURE register
is written exactly once, with `en_dpl` and `en_dyn_ack` set, after the
probe and before the power-up into Standby; an invalid address-width
readback (`aw > 3`) yields `NotConnected` with no FEATURE write; a bus
failure during the probe panics (it does not return an error), with no
FEATURE write. -/
theorem new_feature_write :
    (∀ raw powerUpOk, SetupAw.aw raw ≤ 3 → powerUpOk = true →
      NRF24L01.new (some raw) powerUpOk =
        (NRF24L01.NewOutcome.standby,
          [Action.ceLow, Action.writeFeature NRF24L01.featuresInit, Action.powerUp]) ∧
      (NRF24L01.new (some raw) powerUpOk).2.count
        (Action.writeFeature NRF24L01.featuresInit) = 1) ∧
    NRF24L01.featuresInit.en_dpl = true ∧
    NRF24L01.featuresInit.en_dyn_ack = true ∧
    (∀ raw powerUpOk, 3 < SetupAw.aw raw →
      NRF24L01.new (some raw) powerUpOk =
        (NRF24L01.NewOutcome.notConnected, [Action.ceLow])) ∧
    (∀ powerUpOk, NRF24L01.new none powerUpOk =
      (NRF24L01.NewOutcome.panicked, [Action.ceLow])) := by
  refine ⟨?_, rfl, rfl, ?_, fun powerUpOk => rfl⟩
  · intro raw powerUpOk h hp
    subst hp
    constructor
    · simp [NRF24L01.new, h]
    · simp [NRF24L01.new, h]
  · intro raw powerUpOk h
    simp [NRF24L01.new, Nat.not_le.mpr h]

/-- Witness for C9 at concrete inputs: a readback of raw 3 (valid) with
power-up succeeding, and a readback of raw 4 (invalid). -/
theorem new_feature_write_witness :
    (NRF24L01.new (some 3) true =
      (NRF24L01.NewOutcome.standby,
        [Action.ceLow, Action.writeFeature NRF24L01.featuresInit, Action.powerUp])) ∧
    NRF24L01.new (some 4) true = (NRF24L01.NewOutcome.notConnected, [Action.ceLow]) :=
  ⟨(new_feature_write.1 3 true (by decide) rfl).1,
    new_feature_write.2.2.2.1 4 true (by decide)⟩

lemma dynpdFromBools_eq_zero_iff (bools : Fin 6 → Bool) :
    Configuration.dynpdFromBools bools = 0 ↔ ∀ i, bools i = false := by
  rw [Configuration.dynpdFromBools, Finset.sum_eq_zero_iff]
  constructor
  · intro h i
    have hi := h i (Finset.mem_univ i)
    by_contra hb
    rw [Bool.not_eq_false] at hb
    rw [hb] at hi
    simp at hi
  · intro h i _
    rw [h i]
    rfl

/-- C10: `set_pipes_rx_lengths` performs the FEATURE read-modify-write
setting `en_dpl` exactly when some pipe length is dynamic (`None`): with
at least one dynamic pipe the trace is the `en_dpl := true` FEATURE
write, then the DYNPD write, then the six RX_PW writes; with all six
pipes static the FEATURE register is untouched and the trace is the DYNPD
write (of 0) followed by the six RX_PW writes; and for every pipe the
RX_PW write carries the pipe's static length, or 0 when dynamic, in pipe
order. -/
theorem set_pipes_rx_lengths_spec :
    (∀ lengths feature, (∃ i, lengths i = none) →
      Configuration.set_pipes_rx_lengths lengths feature =
        Action.writeFeature { feature with en_dpl := true } ::
          Action.writeDynpd
            (Configuration.dynpdFromBools (fun i => (lengths i).isNone)) ::
          Configuration.rxPwWrites lengths) ∧
    (∀ lengths feature, (∀ i, (lengths i).isSome = true) →
      Configuration.set_pipes_rx_lengths lengths feature =
        Action.writeDynpd 0 :: Configuration.rxPwWrites lengths ∧
      ∀ f, Action.writeFeature f ∉ Configuration.set_pipes_rx_lengths lengths feature) ∧
    (∀ feature : Feature, ({ feature with en_dpl := true } : Feature).en_dpl = true) ∧
    (∀ lengths (i : Fin 6),
      Action.writeRxPw i ((lengths i).getD 0) ∈ Configuration.rxPwWrites lengths) := by
  refine ⟨?_, ?_, fun feature => rfl, ?_⟩
  · intro lengths feature h
    obtain ⟨i, hi⟩ := h
    have hne : Configuration.dynpdFromBools (fun i => (lengths i).isNone) ≠ 0 := by
      rw [Ne, dynpdFromBools_eq_zero_iff]
      push_neg
      refine ⟨i, ?_⟩
      rw [hi]
      simp
    simp [Configuration.set_pipes_rx_lengths, hne]
  · intro lengths feature h
    have hz : Configuration.dynpdFromBools (fun i => (lengths i).isNone) = 0 := by
      rw [dynpdFromBools_eq_zero_iff]
      intro i
      have := h i
      rw [Option.isNone_eq_false_iff]
      exact this
    constructor
    · simp [Configuration.set_pipes_rx_lengths, hz]
    · intro f hmem
      rw [Configuration.set_pipes_rx_lengths] at hmem
      simp only [hz, ne_eq, not_true_eq_false, if_neg, List.nil_append,
        not_false_eq_true, reduceIte] at hmem
      simp [Configuration.rxPwWrites] at hmem
  · intro lengths i
    fin_cases i <;> simp [Configuration.rxPwWrites]

/-- Witness for C10: all six pipes dynamic (FEATURE written, DYNPD 63),
and all six pipes static at length 32 (no FEATURE write, DYNPD 0). -/
theorem set_pipes_rx_lengths_spec_witness :
    Configuration.set_pipes_rx_lengths (fun _ => none) ⟨false, false, false⟩ =
      Action.writeFeature ⟨true, false, false⟩ ::
        Action.writeDynpd 63 :: Configuration.rxPwWrites (fun _ => none) ∧
    Configuration.set_pipes_rx_lengths (fun _ => some 32) ⟨false, false, false⟩ =
      Action.writeDynpd 0 :: Configuration.rxPwWrites (fun _ => some 32) := by
  constructor
  · have h := set_pipes_rx_lengths_spec.1 (fun _ => none) ⟨false, false, false⟩
      ⟨0, rfl⟩
    simpa using h
  · have h := (set_pipes_rx_lengths_spec.2.1 (fun _ => some 32) ⟨false, false, false⟩
      (fun i => rfl)).1
    simpa using h

end Nrf24
